import Mathlib

/-! Verification development for the chessproject repository.

The server keeps an in-memory map `rooms` from room id to a room record
(`chess` engine state, `white`/`black` seat holders, `watchers` set,
`timers`, `isTimerRunning`), a single-slot quickplay queue `quickWaiting`,
and per-socket data (`socket.data.currentRoom`).  Socket event handlers
(`joinRoom`, `enterQuickplay`, `move`, `resetgame`, `disconnect`) and the
one-second timer callback mutate this state and emit events.

The repository contains several variants of the server.  They are embedded
in separate namespaces:

* `V1` — src/app.js, first variant (lines 1-390): the handlers cited by
  claims C1, C2, C3, C4, C5, C7, C8, C9, C10.
* `V2` — src/app.js, second variant (lines 390-761): the defensive
  `joinRoom` cited by claim C6.
* `P3` — src/unnamed/part_003: the variant with an unguarded timer
  decrement, no quickplay self-check and no idempotent rejoin.
* `P4` — src/unnamed/part_004: the move handler without try/catch.
* `P5` — src/unnamed/part_005: the joinRoom that ignores unknown ids.

The rules engine (chess.js) is an opaque collaborator; only `turn()`,
`move()`, `isGameOver()`, `isCheckmate()` and the fresh initial position
are consumed by the server, so it is modelled as a structure of those
operations over an abstract position type `σ`.  Position snapshots
(`fen()` strings in the source) are carried in emitted events as the
engine state itself.  Socket ids and room ids are numbers; the source's
random 6-character room ids (`makeRoomId`) are modelled by a fresh
counter `nextId` (only freshness matters, collisions are negligible per
the source's design).  Informational string payloads are modelled by
structured enumerations whose constructors name the source text. -/

inductive Color where
  | w
  | b
deriving DecidableEq

def Color.flip : Color → Color
  | .w => .b
  | .b => .w

/-- The operations the server consumes from the chess.js rules engine.
`turn` is total: chess.js `turn()` always returns the side to move, so
the source guard `if (!turn) return` in the timer callbacks is dead code.
`move` returns `none` when the engine rejects the move (chess.js returns
`null`). Squares are numbers standing for the source's square strings. -/
structure Engine (σ : Type) where
  init : σ
  turn : σ → Color
  move : σ → Nat → Nat → Option σ
  isGameOver : σ → Bool
  isCheckmate : σ → Bool

/-- Structured stand-ins for the informational string payloads. -/
inductive InfoText where
  | alreadySearching
  | watching
  | playerLeft
  | invalidPayload
  | missingRoomId
deriving DecidableEq

/-- Payload of a `gameover` emission: `winner c timeout` stands for the
source strings "White"/"Black" with the " (timeout)" suffix when
`timeout` is true; `draw` stands for "Draw". -/
inductive GameResultMsg where
  | winner (c : Color) (timeout : Bool)
  | draw
deriving DecidableEq

/-- Events the server emits.  `fen` payload fields carry the engine
state directly (the source serialises it with `chess.fen()`).  The
`waiting` event's text/link payload and the derived `flags`/`in_check`
fields of the first variant's `boardupdate` are informational metadata
and are not modelled. -/
inductive Ev (σ : Type) where
  | init (role : Option Color) (fen : σ) (tw tb : Int)
  | waiting
  | startgame (fen : σ) (tw tb : Int)
  | boardupdate (fen : σ)
  | boardstate (fen : σ)
  | timers (tw tb : Int)
  | gameover (r : GameResultMsg)
  | info (t : InfoText)
  | looking
  | matched (rid : Nat) (role : Option Color)
  | moveEv (src dst : Nat)
deriving DecidableEq

/-- An emission: `toSock` models `socket.emit` / `io.to(socketId).emit`,
`toRoom` models the room broadcast `io.to(roomId).emit`. -/
inductive Emit (σ : Type) where
  | toSock (sid : Nat) (e : Ev σ)
  | toRoom (rid : Nat) (e : Ev σ)
deriving DecidableEq

/-- A move object: the `from`/`to` fields of a move descriptor, each
possibly absent (`undefined`).  Present squares are non-empty strings in
the source, hence always truthy. -/
structure MoveObj where
  src : Option Nat
  dst : Option Nat
deriving DecidableEq

/-- A JavaScript `move` event payload as the handlers see it: `null`
(or `undefined`), a truthy non-object primitive (property access yields
`undefined` without throwing), or an object with optional `roomId` and
`move` fields plus its own optional `from`/`to` fields (the first
variant falls back to `data` itself when `data.move` is absent). -/
inductive MoveData where
  | null
  | prim
  | obj (roomId : Option Nat) (move : Option MoveObj) (src : Option Nat) (dst : Option Nat)
deriving DecidableEq

/-- Reading `data.roomId`: throws on `null`, `undefined` on a primitive. -/
def dataRoomId : MoveData → Except Unit (Option Nat)
  | .null => .error ()
  | .prim => .ok none
  | .obj rid _ _ _ => .ok rid

/-- Reading `data.move`: throws on `null`, `undefined` on a primitive. -/
def dataMove : MoveData → Except Unit (Option MoveObj)
  | .null => .error ()
  | .prim => .ok none
  | .obj _ mv _ _ => .ok mv

/-- The first variant's `const mv = data.move || data` followed by reads
of `mv.from` and `mv.to`: on an object without a `move` field the object
itself is the move; a primitive has no fields. -/
def dataEffMove : MoveData → Except Unit (Option Nat × Option Nat)
  | .null => .error ()
  | .prim => .ok (none, none)
  | .obj _ (some m) _ _ => .ok (m.src, m.dst)
  | .obj _ none s d => .ok (s, d)

/-- Association-list lookup keyed by numbers (object-property lookup). -/
def lookupA {α : Type} (k : Nat) : List (Nat × α) → Option α
  | [] => none
  | p :: rest => if p.1 = k then some p.2 else lookupA k rest

/-- Removal of a key (`delete rooms[id]`, and the replacement half of a
property assignment). -/
def eraseA {α : Type} (k : Nat) : List (Nat × α) → List (Nat × α)
  | [] => []
  | p :: rest => if p.1 = k then eraseA k rest else p :: eraseA k rest

/-- Property assignment `rooms[id] = room`. -/
def insertA {α : Type} (k : Nat) (v : α) (l : List (Nat × α)) : List (Nat × α) :=
  (k, v) :: eraseA k l

/-- `Set.add`. -/
def addW (s : Nat) (l : List Nat) : List Nat :=
  if s ∈ l then l else s :: l

/-- `Set.delete`. -/
def delW (s : Nat) : List Nat → List Nat
  | [] => []
  | x :: r => if x = s then delW s r else x :: delW s r

/-- One room record.  `timerInterval` is collapsed into `isTimerRunning`:
in every variant the interval handle is non-null exactly while the flag
is set, and tick events can fire exactly while the interval exists. -/
structure Room (σ : Type) where
  chess : σ
  white : Option Nat
  black : Option Nat
  watchers : List Nat
  timersW : Int
  timersB : Int
  isTimerRunning : Bool
deriving DecidableEq

/-- The whole server state: the `rooms` map, the single-slot quickplay
queue (its advisory `createdAt` timestamp is dropped), the per-socket
`socket.data.currentRoom` back-references, the set of connected sockets
(`io.sockets.sockets`), and the fresh-room-id counter standing for
`makeRoomId`.  The write-only `socket.data.isInQuickplay` flag is not
modelled (no handler reads it). -/
structure ServerState (σ : Type) where
  rooms : List (Nat × Room σ)
  quickWaiting : Option Nat
  currentRoom : List (Nat × Nat)
  connected : List Nat
  nextId : Nat
deriving DecidableEq

/-- `createRoom` (identical in every variant): fresh engine state, empty
seats, no watchers, 300 seconds per side, timer not running. -/
def createRoom {σ : Type} (E : Engine σ) : Room σ :=
  { chess := E.init, white := none, black := none, watchers := []
    timersW := 300, timersB := 300, isTimerRunning := false }

/-- `if (!rooms[roomId]) createRoom(roomId)`. -/
def ensureRoom {σ : Type} (E : Engine σ) (rid : Nat) (l : List (Nat × Room σ)) :
    List (Nat × Room σ) :=
  match lookupA rid l with
  | none => insertA rid (createRoom E) l
  | some _ => l

/-- `startRoomTimer` restricted to the room record: no-op when already
running, otherwise marks the timer running (interval creation is
abstracted into the `tick` step being enabled). -/
def startRoomTimer {σ : Type} (room : Room σ) : Room σ :=
  if room.isTimerRunning then room else { room with isTimerRunning := true }

/-- `stopRoomTimer` restricted to the room record. -/
def stopRoomTimer {σ : Type} (room : Room σ) : Room σ :=
  { room with isTimerRunning := false }

/-- Timer counter of a side. -/
def timerOf {σ : Type} (c : Color) (room : Room σ) : Int :=
  match c with
  | .w => room.timersW
  | .b => room.timersB

/-- Assignment to a side's timer counter. -/
def setTimer {σ : Type} (c : Color) (v : Int) (room : Room σ) : Room σ :=
  match c with
  | .w => { room with timersW := v }
  | .b => { room with timersB := v }

/-- `io.sockets.sockets.get(id)` liveness check of the waiting socket. -/
def isConnected {σ : Type} (st : ServerState σ) (sid : Nat) : Bool :=
  sid ∈ st.connected

namespace V1

/-! src/app.js, first variant (lines 1-390). -/

/-- The `joinRoom` handler (app.js lines 146-206): create the room if
absent, then assign white to the first joiner (emitting `init` and, if
black is empty, `waiting`), else black to the second joiner (emitting
`init` to the joiner, starting the timer, and broadcasting `startgame`),
else add the joiner to the watchers (emitting `init`, `info`,
`boardupdate` and `timers` to it); finally record
`socket.data.currentRoom`.  The `String(roomId).toUpperCase()`
normalisation is identity on numeric ids. -/
def joinRoom {σ : Type} (E : Engine σ) (s rid : Nat) (st : ServerState σ) :
    ServerState σ × List (Emit σ) :=
  let rooms1 := ensureRoom E rid st.rooms
  match lookupA rid rooms1 with
  | none => (st, [])
  | some room =>
    if room.white = none then
      let room' := { room with white := some s }
      ({ st with rooms := insertA rid room' rooms1,
                 currentRoom := insertA s rid st.currentRoom },
       Emit.toSock s (Ev.init (some Color.w) room.chess room.timersW room.timersB) ::
         (if room.black = none then [Emit.toSock s Ev.waiting] else []))
    else if room.black = none then
      let room' := startRoomTimer { room with black := some s }
      ({ st with rooms := insertA rid room' rooms1,
                 currentRoom := insertA s rid st.currentRoom },
       [Emit.toSock s (Ev.init (some Color.b) room.chess room.timersW room.timersB),
        Emit.toRoom rid (Ev.startgame room.chess room.timersW room.timersB)])
    else
      let room' := { room with watchers := addW s room.watchers }
      ({ st with rooms := insertA rid room' rooms1,
                 currentRoom := insertA s rid st.currentRoom },
       [Emit.toSock s (Ev.init none room.chess room.timersW room.timersB),
        Emit.toSock s (Ev.info InfoText.watching),
        Emit.toSock s (Ev.boardupdate room.chess),
        Emit.toSock s (Ev.timers room.timersW room.timersB)])

/-- The `enterQuickplay` handler (app.js lines 210-267): ignore a repeat
request from the waiting socket; otherwise become the waiting socket if
the slot is empty or its occupant has disconnected; otherwise create a
room (with *no* seat assignment: the role-assignment lines are deleted
in this variant), clear the slot, and notify both sockets `matched`. -/
def enterQuickplay {σ : Type} (E : Engine σ) (s : Nat) (st : ServerState σ) :
    ServerState σ × List (Emit σ) :=
  if st.quickWaiting = some s then
    (st, [Emit.toSock s (Ev.info InfoText.alreadySearching)])
  else
    match st.quickWaiting with
    | none => ({ st with quickWaiting := some s }, [Emit.toSock s Ev.looking])
    | some w =>
      if isConnected st w = false then
        ({ st with quickWaiting := some s }, [Emit.toSock s Ev.looking])
      else
        let rid := st.nextId
        ({ st with rooms := insertA rid (createRoom E) st.rooms,
                   quickWaiting := none, nextId := st.nextId + 1 },
         [Emit.toSock w (Ev.matched rid none), Emit.toSock s (Ev.matched rid none)])

/-- `socket.data.currentRoom || data.roomId` (short-circuiting, so the
possibly-throwing `data.roomId` read is reached only when no current
room is recorded). -/
def resolveRid {σ : Type} (s : Nat) (d : MoveData) (st : ServerState σ) :
    Except Unit (Option Nat) :=
  match lookupA s st.currentRoom with
  | some rid => .ok (some rid)
  | none => dataRoomId d

/-- Body of the `move` handler (app.js lines 270-319), inside the `try`:
resolve the room, read the move descriptor, return silently unless the
submitting socket holds the seat whose side it is to move, attempt the
move on the engine, and on success broadcast `boardupdate` and `timers`,
stop and restart the timer, and if the engine reports game over stop the
timer and broadcast `gameover`. -/
def moveBody {σ : Type} (E : Engine σ) (s : Nat) (d : MoveData) (st : ServerState σ) :
    Except Unit (ServerState σ × List (Emit σ)) :=
  match resolveRid s d st with
  | .error e => .error e
  | .ok none => .ok (st, [])
  | .ok (some rid) =>
    match lookupA rid st.rooms with
    | none => .ok (st, [])
    | some room =>
      match dataEffMove d with
      | .error e => .error e
      | .ok (some f, some t) =>
        let turn := E.turn room.chess
        if (turn = Color.w ∧ room.white ≠ some s) ∨
           (turn = Color.b ∧ room.black ≠ some s) then
          .ok (st, [])
        else
          match E.move room.chess f t with
          | none => .ok (st, [])
          | some chess' =>
            let room1 := { room with chess := chess' }
            let ems := [Emit.toRoom rid (Ev.boardupdate chess'),
                        Emit.toRoom rid (Ev.timers room1.timersW room1.timersB)]
            let room2 := startRoomTimer (stopRoomTimer room1)
            if E.isGameOver chess' then
              let msg := if E.isCheckmate chess' then
                           GameResultMsg.winner (E.turn chess').flip false
                         else GameResultMsg.draw
              .ok ({ st with rooms := insertA rid (stopRoomTimer room2) st.rooms },
                   ems ++ [Emit.toRoom rid (Ev.gameover msg)])
            else
              .ok ({ st with rooms := insertA rid room2 st.rooms }, ems)
      | .ok _ => .ok (st, [])

/-- The `move` handler: the body runs inside `try { ... } catch`, and
every throw in the body happens before any state mutation, so a caught
error leaves the state unchanged and emits nothing. -/
def onMove {σ : Type} (E : Engine σ) (s : Nat) (d : MoveData) (st : ServerState σ) :
    ServerState σ × List (Emit σ) :=
  match moveBody E s d st with
  | .ok r => r
  | .error _ => (st, [])

/-- The `resetgame` handler (app.js lines 322-333): resolve the room id
from the payload, falling back to `socket.data.currentRoom` (both absent
yields the empty id, which names no room); if the room exists, replace
the engine state with a fresh one, reset both timers to 300, stop the
timer, and broadcast `boardupdate` and `timers`.  No membership check on
the sender. -/
def resetgame {σ : Type} (E : Engine σ) (s : Nat) (rid? : Option Nat)
    (st : ServerState σ) : ServerState σ × List (Emit σ) :=
  match rid?.orElse (fun _ => lookupA s st.currentRoom) with
  | none => (st, [])
  | some rid =>
    match lookupA rid st.rooms with
    | none => (st, [])
    | some room =>
      let room' := stopRoomTimer { room with chess := E.init, timersW := 300, timersB := 300 }
      ({ st with rooms := insertA rid room' st.rooms },
       [Emit.toRoom rid (Ev.boardupdate E.init), Emit.toRoom rid (Ev.timers 300 300)])

/-- The `disconnect` handler (app.js lines 336-370): drop the socket
from the connected set, clear the quickplay slot if it held this socket,
and if the socket had a current room that still exists, vacate whichever
of the seats/watchers holds it, broadcast `info`, and delete the room
(stopping its timer) when both seats are now empty. -/
def disconnect {σ : Type} (s : Nat) (st : ServerState σ) :
    ServerState σ × List (Emit σ) :=
  let st1 := { st with connected := delW s st.connected,
                       quickWaiting := if st.quickWaiting = some s then none
                                       else st.quickWaiting }
  match lookupA s st.currentRoom with
  | none => (st1, [])
  | some rid =>
    match lookupA rid st1.rooms with
    | none => (st1, [])
    | some room =>
      let room' := { room with
        white := if room.white = some s then none else room.white,
        black := if room.black = some s then none else room.black,
        watchers := delW s room.watchers }
      if room'.white = none ∧ room'.black = none then
        ({ st1 with rooms := eraseA rid st1.rooms,
                    currentRoom := eraseA s st1.currentRoom },
         [Emit.toRoom rid (Ev.info InfoText.playerLeft)])
      else
        ({ st1 with rooms := insertA rid room' st1.rooms,
                    currentRoom := eraseA s st1.currentRoom },
         [Emit.toRoom rid (Ev.info InfoText.playerLeft)])

/-- The one-second interval callback of `startRoomTimer` (app.js lines
62-79).  A tick can fire only while the room's timer is running.  It
decrements the side-to-move's counter *only when positive* (`if
(room.timers[turn] > 0)`), broadcasts `timers`, and when the counter is
now `<= 0` clears the interval, marks the timer not running, and
broadcasts the timeout `gameover` naming the opposite side. -/
def tick {σ : Type} (E : Engine σ) (rid : Nat) (st : ServerState σ) :
    ServerState σ × List (Emit σ) :=
  match lookupA rid st.rooms with
  | none => (st, [])
  | some room =>
    if room.isTimerRunning = false then (st, [])
    else
      let t := E.turn room.chess
      let room1 := if 0 < timerOf t room then setTimer t (timerOf t room - 1) room else room
      if timerOf t room1 ≤ 0 then
        ({ st with rooms := insertA rid (stopRoomTimer room1) st.rooms },
         [Emit.toRoom rid (Ev.timers room1.timersW room1.timersB),
          Emit.toRoom rid (Ev.gameover (GameResultMsg.winner t.flip true))])
      else
        ({ st with rooms := insertA rid room1 st.rooms },
         [Emit.toRoom rid (Ev.timers room1.timersW room1.timersB)])

/-- A new socket connection (`io.on("connection")`). -/
def connect {σ : Type} (s : Nat) (st : ServerState σ) : ServerState σ :=
  { st with connected := addW s st.connected }

/-- The room-creating HTTP routes `/create-room` and `/room/:id`. -/
def routeRoom {σ : Type} (E : Engine σ) (rid : Nat) (st : ServerState σ) : ServerState σ :=
  { st with rooms := ensureRoom E rid st.rooms }

end V1

/-- Payload of the second variant's `joinRoom`: a string room id, an
object with optional `roomId` (absent yields the empty id) and optional
forced `role`, or anything else (rejected as invalid). -/
inductive JoinPayload where
  | str (rid : Nat)
  | obj (rid : Option Nat) (role : Option Color)
  | bad
deriving DecidableEq

/-- Seat of a color. -/
def seatOf {σ : Type} (c : Color) (room : Room σ) : Option Nat :=
  match c with
  | .w => room.white
  | .b => room.black

/-- Assignment to the seat of a color. -/
def setSeat {σ : Type} (c : Color) (s : Nat) (room : Room σ) : Room σ :=
  match c with
  | .w => { room with white := some s }
  | .b => { room with black := some s }

/-- `isSocketConnected(id)`: false for a missing id, else a liveness
lookup (app.js lines 425-428). -/
def isSocketConnected {σ : Type} (st : ServerState σ) (x : Option Nat) : Bool :=
  match x with
  | none => false
  | some i => i ∈ st.connected

namespace V2

/-! src/app.js, second variant (lines 390-761): only its `joinRoom`
handler (lines 497-597) is needed by the claims. -/

/-- The defensive `joinRoom`: parse the payload (rejecting invalid
payloads and missing ids with an `info`), create the room if absent,
record `socket.data.currentRoom`, and then: re-`init` a socket that
already owns a seat without touching anything else; honour a forced role
when that seat is free or stale, starting the game when both seats are
occupied and connected; otherwise fill white then black (skipping seats
held by still-connected sockets), starting the game when the second seat
fills; otherwise add the joiner to the watchers. -/
def joinRoom {σ : Type} (E : Engine σ) (s : Nat) (d : JoinPayload)
    (st : ServerState σ) : ServerState σ × List (Emit σ) :=
  match d with
  | .bad => (st, [Emit.toSock s (Ev.info InfoText.invalidPayload)])
  | .obj none _ => (st, [Emit.toSock s (Ev.info InfoText.missingRoomId)])
  | .str rid => joinCore E s rid none st
  | .obj (some rid) role => joinCore E s rid role st
where
  /-- The handler body after payload parsing. -/
  joinCore (E : Engine σ) (s rid : Nat) (forcedRole : Option Color)
      (st : ServerState σ) : ServerState σ × List (Emit σ) :=
    let rooms1 := ensureRoom E rid st.rooms
    match lookupA rid rooms1 with
    | none => (st, [])
    | some room =>
      let st1 := { st with rooms := rooms1,
                           currentRoom := insertA s rid st.currentRoom }
      if room.white = some s then
        (st1, [Emit.toSock s (Ev.init (some Color.w) room.chess room.timersW room.timersB)])
      else if room.black = some s then
        (st1, [Emit.toSock s (Ev.init (some Color.b) room.chess room.timersW room.timersB)])
      else
        match forcedRole with
        | some c =>
          if seatOf c room = none ∨ isSocketConnected st (seatOf c room) = false then
            let room' := setSeat c s room
            if room'.white ≠ none ∧ room'.black ≠ none ∧
               isSocketConnected st room'.white = true ∧
               isSocketConnected st room'.black = true then
              let room'' := startRoomTimer room'
              ({ st1 with rooms := insertA rid room'' rooms1 },
               [Emit.toSock s (Ev.init (some c) room.chess room.timersW room.timersB),
                Emit.toRoom rid (Ev.boardstate room.chess),
                Emit.toRoom rid (Ev.timers room.timersW room.timersB)])
            else
              ({ st1 with rooms := insertA rid room' rooms1 },
               [Emit.toSock s (Ev.init (some c) room.chess room.timersW room.timersB)])
          else
            let room' := { room with watchers := addW s room.watchers }
            ({ st1 with rooms := insertA rid room' rooms1 },
             [Emit.toSock s (Ev.init none room.chess room.timersW room.timersB),
              Emit.toSock s (Ev.boardstate room.chess),
              Emit.toSock s (Ev.timers room.timersW room.timersB)])
        | none =>
          if room.white = none ∨ isSocketConnected st room.white = false then
            let room' := { room with white := some s }
            if room.black ≠ none ∧ isSocketConnected st room.black = true then
              let room'' := startRoomTimer room'
              ({ st1 with rooms := insertA rid room'' rooms1 },
               [Emit.toSock s (Ev.init (some Color.w) room.chess room.timersW room.timersB),
                Emit.toRoom rid (Ev.boardstate room.chess),
                Emit.toRoom rid (Ev.timers room.timersW room.timersB)])
            else
              ({ st1 with rooms := insertA rid room' rooms1 },
               [Emit.toSock s (Ev.init (some Color.w) room.chess room.timersW room.timersB),
                Emit.toSock s Ev.waiting])
          else if room.black = none ∨ isSocketConnected st room.black = false then
            let room' := startRoomTimer { room with black := some s }
            ({ st1 with rooms := insertA rid room' rooms1 },
             (match room.white with
              | some w0 => [Emit.toSock w0 (Ev.init (some Color.w) room.chess room.timersW room.timersB)]
              | none => []) ++
             [Emit.toSock s (Ev.init (some Color.b) room.chess room.timersW room.timersB),
              Emit.toRoom rid (Ev.boardstate room.chess),
              Emit.toRoom rid (Ev.timers room.timersW room.timersB)])
          else
            let room' := { room with watchers := addW s room.watchers }
            ({ st1 with rooms := insertA rid room' rooms1 },
             [Emit.toSock s (Ev.init none room.chess room.timersW room.timersB),
              Emit.toSock s (Ev.boardstate room.chess),
              Emit.toSock s (Ev.timers room.timersW room.timersB)])

end V2

namespace P3

/-! src/unnamed/part_003.  Same room/state shape as `V1`; the
differences embedded here: the timer callback decrements without the
positivity guard, `enterQuickplay` has no already-waiting or liveness
check and assigns both seats at match time, and `joinRoom` has no
rejoin check. -/

/-- The `joinRoom` handler (part_003 lines 115-148): create if absent,
assign white if empty, else black if empty, else watcher; record
`socket.data.roomId`; emit `init` with the assigned role; if both seats
are occupied and the timer is not running, start it and broadcast
`boardstate` and `timers`. -/
def joinRoom {σ : Type} (E : Engine σ) (s rid : Nat) (st : ServerState σ) :
    ServerState σ × List (Emit σ) :=
  let rooms1 := ensureRoom E rid st.rooms
  match lookupA rid rooms1 with
  | none => (st, [])
  | some room =>
    let assigned :=
      if room.white = none then ({ room with white := some s }, some Color.w)
      else if room.black = none then ({ room with black := some s }, some Color.b)
      else ({ room with watchers := addW s room.watchers }, (none : Option Color))
    let room1 := assigned.1
    let ems1 := [Emit.toSock s (Ev.init assigned.2 room1.chess room1.timersW room1.timersB)]
    if room1.white ≠ none ∧ room1.black ≠ none ∧ room1.isTimerRunning = false then
      ({ st with rooms := insertA rid (startRoomTimer room1) rooms1,
                 currentRoom := insertA s rid st.currentRoom },
       ems1 ++ [Emit.toRoom rid (Ev.boardstate room1.chess),
                Emit.toRoom rid (Ev.timers room1.timersW room1.timersB)])
    else
      ({ st with rooms := insertA rid room1 rooms1,
                 currentRoom := insertA s rid st.currentRoom },
       ems1)

/-- The `enterQuickplay` handler (part_003 lines 92-112): if nobody is
waiting, become the waiting socket; otherwise match the waiting socket
as white and the requester as black in a fresh room — with no check that
the two are distinct. -/
def enterQuickplay {σ : Type} (E : Engine σ) (s : Nat) (st : ServerState σ) :
    ServerState σ × List (Emit σ) :=
  match st.quickWaiting with
  | none => ({ st with quickWaiting := some s }, [Emit.toSock s Ev.looking])
  | some p1 =>
    let rid := st.nextId
    let room := { createRoom E with white := some p1, black := some s }
    ({ st with rooms := insertA rid room st.rooms, quickWaiting := none,
               nextId := st.nextId + 1 },
     [Emit.toSock p1 (Ev.matched rid none), Emit.toSock s (Ev.matched rid none)])

/-- The `move` handler (part_003 lines 151-179) applied to a payload
whose destructuring succeeded (`{ roomId, move }` with both squares
present): turn-enforcement against the seat holders, engine validation,
then `move`/`boardstate` broadcasts, timer stop/start, and a `gameover`
broadcast when the engine reports a terminal position. -/
def onMove {σ : Type} (E : Engine σ) (s rid f t : Nat) (st : ServerState σ) :
    ServerState σ × List (Emit σ) :=
  match lookupA rid st.rooms with
  | none => (st, [])
  | some room =>
    let turn := E.turn room.chess
    if (turn = Color.w ∧ room.white ≠ some s) ∨
       (turn = Color.b ∧ room.black ≠ some s) then
      (st, [])
    else
      match E.move room.chess f t with
      | none => (st, [])
      | some chess' =>
        let room1 := { room with chess := chess' }
        let ems := [Emit.toRoom rid (Ev.moveEv f t),
                    Emit.toRoom rid (Ev.boardstate chess')]
        let room2 := startRoomTimer (stopRoomTimer room1)
        if E.isGameOver chess' then
          let msg := if E.isCheckmate chess' then
                       GameResultMsg.winner (E.turn chess').flip false
                     else GameResultMsg.draw
          ({ st with rooms := insertA rid (stopRoomTimer room2) st.rooms },
           ems ++ [Emit.toRoom rid (Ev.gameover msg)])
        else
          ({ st with rooms := insertA rid room2 st.rooms }, ems)

/-- The one-second interval callback of part_003's `startRoomTimer`
(lines 37-61): it decrements the side-to-move's counter
*unconditionally* (`room.timers[turn]--`, no positivity guard),
broadcasts `timers`, and stops with a timeout `gameover` when the
counter is now `<= 0`. -/
def tick {σ : Type} (E : Engine σ) (rid : Nat) (st : ServerState σ) :
    ServerState σ × List (Emit σ) :=
  match lookupA rid st.rooms with
  | none => (st, [])
  | some room =>
    if room.isTimerRunning = false then (st, [])
    else
      let t := E.turn room.chess
      let room1 := setTimer t (timerOf t room - 1) room
      if timerOf t room1 ≤ 0 then
        ({ st with rooms := insertA rid (stopRoomTimer room1) st.rooms },
         [Emit.toRoom rid (Ev.timers room1.timersW room1.timersB),
          Emit.toRoom rid (Ev.gameover (GameResultMsg.winner t.flip true))])
      else
        ({ st with rooms := insertA rid room1 st.rooms },
         [Emit.toRoom rid (Ev.timers room1.timersW room1.timersB)])

/-- Driver events for concrete part_003 runs. -/
inductive Act where
  | join (s rid : Nat)
  | quick (s : Nat)
  | mv (s rid f t : Nat)
  | tick (rid : Nat)
deriving DecidableEq

/-- One driver event, dropping the emissions. -/
def stepAct {σ : Type} (E : Engine σ) (st : ServerState σ) : Act → ServerState σ
  | .join s rid => (joinRoom E s rid st).1
  | .quick s => (enterQuickplay E s st).1
  | .mv s rid f t => (onMove E s rid f t st).1
  | .tick rid => (tick E rid st).1

/-- Run a list of driver events. -/
def run {σ : Type} (E : Engine σ) (l : List Act) (st : ServerState σ) : ServerState σ :=
  l.foldl (stepAct E) st

end P3

namespace P4

/-! src/unnamed/part_004: its `move` handler (lines 188-216), which has
no try/catch, so the `data.move` read on a `null` payload throws out of
the handler. -/

/-- The `move` handler: resolve the room from `socket.data.roomId`,
read `data.move` (throwing on a `null` payload), enforce turn ownership,
let the engine validate (`chess.move` of a missing or incomplete move
object returns `null`), then broadcast `move`/`boardstate`/`timers`,
restart the timer, and broadcast `gameover` on a terminal position.
The `Except.error` result is the uncaught exception. -/
def onMove {σ : Type} (E : Engine σ) (s : Nat) (d : MoveData) (st : ServerState σ) :
    Except Unit (ServerState σ × List (Emit σ)) :=
  match lookupA s st.currentRoom with
  | none => .ok (st, [])
  | some rid =>
    match lookupA rid st.rooms with
    | none => .ok (st, [])
    | some room =>
      match dataMove d with
      | .error e => .error e
      | .ok mv =>
      let turn := E.turn room.chess
      if (turn = Color.w ∧ room.white ≠ some s) ∨
         (turn = Color.b ∧ room.black ≠ some s) then
        .ok (st, [])
      else
        match mv with
        | none => .ok (st, [])
        | some m =>
          match m.src, m.dst with
          | some f, some t =>
            match E.move room.chess f t with
            | none => .ok (st, [])
            | some chess' =>
              let room1 := { room with chess := chess' }
              let ems := [Emit.toRoom rid (Ev.moveEv f t),
                          Emit.toRoom rid (Ev.boardstate chess'),
                          Emit.toRoom rid (Ev.timers room1.timersW room1.timersB)]
              let room2 := startRoomTimer (stopRoomTimer room1)
              if E.isGameOver chess' then
                let msg := if E.isCheckmate chess' then
                             GameResultMsg.winner (E.turn chess').flip false
                           else GameResultMsg.draw
                .ok ({ st with rooms := insertA rid (stopRoomTimer room2) st.rooms },
                     ems ++ [Emit.toRoom rid (Ev.gameover msg)])
              else
                .ok ({ st with rooms := insertA rid room2 st.rooms }, ems)
          | _, _ => .ok (st, [])

end P4

/-- A part_005 room record: same as `Room` plus the `_locked` flag that
freezes friend-mode seat assignment after a quickplay match. -/
structure Room5 (σ : Type) where
  chess : σ
  white : Option Nat
  black : Option Nat
  watchers : List Nat
  timersW : Int
  timersB : Int
  isTimerRunning : Bool
  locked : Bool
deriving DecidableEq

/-- The part_005 server state (only the pieces `joinRoom` touches). -/
structure State5 (σ : Type) where
  rooms : List (Nat × Room5 σ)
  currentRoom : List (Nat × Nat)
deriving DecidableEq

namespace P5

/-! src/unnamed/part_005: its `joinRoom` handler (lines 121-179). -/

/-- The `joinRoom` handler: *returns immediately when the room id is
not registered* (`if (!rooms[roomId]) return;`, line 123) — no creation,
no reply.  Otherwise record the current room, re-`init` a socket that
already holds a seat, fill the seats in friend mode when the room is not
locked (white gets `init`+`waiting`; filling black re-`init`s both
players, starts the timer and broadcasts `boardstate`/`timers`), and
otherwise add the joiner to the watchers. -/
def joinRoom {σ : Type} (s rid : Nat) (st : State5 σ) :
    State5 σ × List (Emit σ) :=
  match lookupA rid st.rooms with
  | none => (st, [])
  | some room =>
    let st1 := { st with currentRoom := insertA s rid st.currentRoom }
    if room.white = some s then
      (st1, [Emit.toSock s (Ev.init (some Color.w) room.chess room.timersW room.timersB)])
    else if room.black = some s then
      (st1, [Emit.toSock s (Ev.init (some Color.b) room.chess room.timersW room.timersB)])
    else if room.locked = false ∧ room.white = none then
      ({ st1 with rooms := insertA rid { room with white := some s } st.rooms },
       [Emit.toSock s (Ev.init (some Color.w) room.chess room.timersW room.timersB),
        Emit.toSock s Ev.waiting])
    else if room.locked = false ∧ room.black = none then
      let room' := { room with black := some s,
                               isTimerRunning := true }
      ({ st1 with rooms := insertA rid room' st.rooms },
       (match room.white with
        | some w0 => [Emit.toSock w0 (Ev.init (some Color.w) room.chess room.timersW room.timersB)]
        | none => []) ++
       [Emit.toSock s (Ev.init (some Color.b) room.chess room.timersW room.timersB),
        Emit.toRoom rid (Ev.boardstate room.chess),
        Emit.toRoom rid (Ev.timers room.timersW room.timersB)])
    else
      ({ st1 with rooms := insertA rid { room with watchers := addW s room.watchers } st.rooms },
       [Emit.toSock s (Ev.init none room.chess room.timersW room.timersB)])

end P5

namespace V1

/-- Driver events for concrete first-variant runs. -/
inductive Act where
  | join (s rid : Nat)
  | quick (s : Nat)
  | mv (s : Nat) (d : MoveData)
  | tick (rid : Nat)
  | reset (s : Nat) (rid : Option Nat)
  | disc (s : Nat)
deriving DecidableEq

/-- One driver event, dropping the emissions. -/
def stepAct {σ : Type} (E : Engine σ) (st : ServerState σ) : Act → ServerState σ
  | .join s rid => (joinRoom E s rid st).1
  | .quick s => (enterQuickplay E s st).1
  | .mv s d => (onMove E s d st).1
  | .tick rid => (tick E rid st).1
  | .reset s rid => (resetgame E s rid st).1
  | .disc s => (disconnect s st).1

/-- Run a list of driver events. -/
def run {σ : Type} (E : Engine σ) (l : List Act) (st : ServerState σ) : ServerState σ :=
  l.foldl (stepAct E) st

end V1

/-- A minimal executable instantiation of the rules-engine interface,
used to evaluate the server models on concrete inputs: a position is the
side to move plus a move counter; a move is legal exactly when its two
squares differ, and legal moves flip the side to move; no position is
terminal. -/
structure ToyPos where
  side : Color
  moves : Nat
deriving DecidableEq

/-- The concrete toy rules engine. -/
def toyEngine : Engine ToyPos where
  init := { side := Color.w, moves := 0 }
  turn p := p.side
  move p f t := if f ≠ t then some { side := p.side.flip, moves := p.moves + 1 } else none
  isGameOver _ := false
  isCheckmate _ := false

/-- A start state with two connected sockets `1` and `2` and no rooms. -/
def st0c : ServerState ToyPos :=
  { rooms := [], quickWaiting := none, currentRoom := [], connected := [1, 2], nextId := 0 }

/-- The well-formed move payload `{ move: { from: 10, to: 11 } }`. -/
def mv1011 : MoveData := MoveData.obj none (some { src := some 10, dst := some 11 }) none none

/-- The well-formed move payload `{ move: { from: 12, to: 13 } }`. -/
def mv1213 : MoveData := MoveData.obj none (some { src := some 12, dst := some 13 }) none none

/-- First-variant trace for claim C3: sockets 1 and 2 take the seats of
room 5 (which starts the clock with white to move) and then 299 ticks
elapse, leaving white's counter at 1 with the clock still running. -/
def c3pre : ServerState ToyPos :=
  V1.run toyEngine (V1.Act.join 1 5 :: V1.Act.join 2 5 :: List.replicate 299 (V1.Act.tick 5)) st0c

/-- The state right after the timeout tick of the C3 trace. -/
def c3post : ServerState ToyPos := (V1.tick toyEngine 5 c3pre).1

/-- Part_003 trace for claim C5: sockets 1 and 2 take the seats of room
5, white's clock runs out over 300 ticks (timeout fires and the clock
stops at 0), each player then makes one accepted move (each restarting
the clock), and one more tick fires with white again to move. -/
def c5tr : ServerState ToyPos :=
  P3.run toyEngine ([P3.Act.join 1 5, P3.Act.join 2 5] ++ List.replicate 300 (P3.Act.tick 5)
    ++ [P3.Act.mv 1 5 10 11, P3.Act.mv 2 5 12 13, P3.Act.tick 5]) st0c

/-- A part_004 state: room 5 exists with empty seats and socket 1 is
attached to it (`socket.data.roomId = 5`). -/
def p4st : ServerState ToyPos :=
  { rooms := [(5, createRoom toyEngine)], quickWaiting := none,
    currentRoom := [(1, 5)], connected := [1], nextId := 0 }

/-- A concrete room with the clock running and white's counter at 1. -/
def c3wroom : Room ToyPos :=
  { chess := { side := Color.w, moves := 0 }, white := some 1, black := some 2,
    watchers := [], timersW := 1, timersB := 300, isTimerRunning := true }

/-- A concrete server state containing only `c3wroom` as room 5. -/
def c3wst : ServerState ToyPos :=
  { rooms := [(5, c3wroom)], quickWaiting := none, currentRoom := [],
    connected := [], nextId := 0 }

/-- The empty part_005 state: no registered rooms. -/
def p5st0 : State5 ToyPos := { rooms := [], currentRoom := [] }

namespace V1

/-- The state of the first variant's server at process start: no rooms,
no waiting quickplay socket, no connections. -/
def initServer {σ : Type} : ServerState σ :=
  { rooms := [], quickWaiting := none, currentRoom := [], connected := [], nextId := 0 }

/-- One event-loop turn of the first variant: any socket handler on any
payload, a timer tick, a new connection, or a room-creating HTTP route. -/
inductive Step {σ : Type} (E : Engine σ) : ServerState σ → ServerState σ → Prop where
  | join (st : ServerState σ) (s rid : Nat) : Step E st (joinRoom E s rid st).1
  | quick (st : ServerState σ) (s : Nat) : Step E st (enterQuickplay E s st).1
  | move (st : ServerState σ) (s : Nat) (d : MoveData) : Step E st (onMove E s d st).1
  | reset (st : ServerState σ) (s : Nat) (rid? : Option Nat) : Step E st (resetgame E s rid? st).1
  | disc (st : ServerState σ) (s : Nat) : Step E st (disconnect s st).1
  | tick (st : ServerState σ) (rid : Nat) : Step E st (tick E rid st).1
  | conn (st : ServerState σ) (s : Nat) : Step E st (connect s st)
  | route (st : ServerState σ) (rid : Nat) : Step E st (routeRoom E rid st)

/-- The states the first variant's server can reach from process start. -/
inductive Reachable {σ : Type} (E : Engine σ) : ServerState σ → Prop where
  | base : Reachable E initServer
  | step {st st' : ServerState σ} : Reachable E st → Step E st st' → Reachable E st'

end V1

/-- Both clock counters of a room are non-negative. -/
def okR {σ : Type} (r : Room σ) : Prop := 0 ≤ r.timersW ∧ 0 ≤ r.timersB

/-- Every registered room has non-negative clock counters. -/
def RoomsOk {σ : Type} (l : List (Nat × Room σ)) : Prop := ∀ p ∈ l, okR p.2

/-- Every registered room has both seats empty. -/
def SeatsEmptyAll {σ : Type} (l : List (Nat × Room σ)) : Prop :=
  ∀ p ∈ l, p.2.white = none ∧ p.2.black = none

/-- Iterated `enterQuickplay` of the first variant from a list of
requesting sockets, dropping the emissions. -/
def V1.runQuick {σ : Type} (E : Engine σ) (senders : List Nat) (st : ServerState σ) :
    ServerState σ :=
  senders.foldl (fun st s => (V1.enterQuickplay E s st).1) st

/-- A malformed `move` payload in the sense of the spec: `null`, a
non-object, or an object whose effective move descriptor is missing the
`from` or `to` field. -/
def MalformedMove : MoveData → Prop
  | .null => True
  | .prim => True
  | .obj _ (some m) _ _ => m.src = none ∨ m.dst = none
  | .obj _ none s d => s = none ∨ d = none

/-! Helper lemmas about the association-list operations. -/

theorem lookupA_insertA_self {α : Type} (k : Nat) (v : α) (l : List (Nat × α)) :
    lookupA k (insertA k v l) = some v := by
  simp [insertA, lookupA]

theorem mem_eraseA {α : Type} {p : Nat × α} {k : Nat} {l : List (Nat × α)}
    (h : p ∈ eraseA k l) : p ∈ l := by
  induction l with
  | nil => simp [eraseA] at h
  | cons q rest ih =>
    by_cases hq : q.1 = k
    · simp only [eraseA, if_pos hq] at h
      exact List.mem_cons_of_mem _ (ih h)
    · simp only [eraseA, if_neg hq] at h
      rcases List.mem_cons.mp h with h1 | h2
      · exact List.mem_cons.mpr (Or.inl h1)
      · exact List.mem_cons_of_mem _ (ih h2)

theorem lookupA_mem {α : Type} {k : Nat} {l : List (Nat × α)} {v : α}
    (h : lookupA k l = some v) : (k, v) ∈ l := by
  induction l with
  | nil => simp [lookupA] at h
  | cons q rest ih =>
    by_cases hq : q.1 = k
    · simp only [lookupA, if_pos hq, Option.some.injEq] at h
      have : q = (k, v) := by
        cases q
        simp_all
      exact this ▸ List.mem_cons_self _ _
    · simp only [lookupA, if_neg hq] at h
      exact List.mem_cons_of_mem _ (ih h)

theorem lookupA_eraseA_ne {α : Type} {k k' : Nat} (h : k' ≠ k) (l : List (Nat × α)) :
    lookupA k' (eraseA k l) = lookupA k' l := by
  induction l with
  | nil => simp [eraseA]
  | cons q rest ih =>
    by_cases hq : q.1 = k
    · have hne : ¬ q.1 = k' := by
        intro hc
        exact h (by rw [← hc, hq])
      simp only [eraseA, if_pos hq, lookupA, if_neg hne, ih]
    · by_cases hq' : q.1 = k'
      · simp only [eraseA, if_neg hq, lookupA, if_pos hq']
      · simp only [eraseA, if_neg hq, lookupA, if_neg hq', ih]

theorem lookupA_insertA_ne {α : Type} {k k' : Nat} (h : k' ≠ k) (v : α)
    (l : List (Nat × α)) :
    lookupA k' (insertA k v l) = lookupA k' l := by
  have hne : ¬ k = k' := fun hc => h hc.symm
  simp only [insertA, lookupA, if_neg hne, lookupA_eraseA_ne h]

/-! Preservation of non-negative clock counters (claim C5, app.js). -/

theorem okR_createRoom {σ : Type} (E : Engine σ) : okR (createRoom E) := by
  constructor <;> norm_num [createRoom]

theorem roomsOk_eraseA {σ : Type} {k : Nat} {l : List (Nat × Room σ)}
    (h : RoomsOk l) : RoomsOk (eraseA k l) :=
  fun p hp => h p (mem_eraseA hp)

theorem roomsOk_insertA {σ : Type} {k : Nat} {v : Room σ} {l : List (Nat × Room σ)}
    (hv : okR v) (h : RoomsOk l) : RoomsOk (insertA k v l) := by
  intro p hp
  rcases List.mem_cons.mp hp with h1 | h2
  · rw [h1]
    exact hv
  · exact h p (mem_eraseA h2)

theorem okR_of_lookupA {σ : Type} {k : Nat} {l : List (Nat × Room σ)} {r : Room σ}
    (h : RoomsOk l) (hk : lookupA k l = some r) : okR r :=
  h (k, r) (lookupA_mem hk)

theorem roomsOk_ensureRoom {σ : Type} (E : Engine σ) (rid : Nat)
    {l : List (Nat × Room σ)} (h : RoomsOk l) : RoomsOk (ensureRoom E rid l) := by
  unfold ensureRoom
  split
  · exact roomsOk_insertA (okR_createRoom E) h
  · exact h

theorem roomsOk_joinRoom {σ : Type} (E : Engine σ) (s rid : Nat) {st : ServerState σ}
    (h : RoomsOk st.rooms) : RoomsOk (V1.joinRoom E s rid st).1.rooms := by
  have h1 : RoomsOk (ensureRoom E rid st.rooms) := roomsOk_ensureRoom E rid h
  simp only [V1.joinRoom]
  split
  · exact h
  next room hl =>
    have hr : okR room := okR_of_lookupA h1 hl
    split
    · exact roomsOk_insertA hr h1
    · split
      · refine roomsOk_insertA ?_ h1
        unfold startRoomTimer
        split <;> exact hr
      · exact roomsOk_insertA hr h1

theorem roomsOk_enterQuickplay {σ : Type} (E : Engine σ) (s : Nat) {st : ServerState σ}
    (h : RoomsOk st.rooms) : RoomsOk (V1.enterQuickplay E s st).1.rooms := by
  simp only [V1.enterQuickplay]
  split
  · exact h
  · split
    · exact h
    · split
      · exact h
      · exact roomsOk_insertA (okR_createRoom E) h

theorem okR_setTimer_dec {σ : Type} {room : Room σ} {c : Color} (hok : okR room)
    (hpos : 0 < timerOf c room) : okR (setTimer c (timerOf c room - 1) room) := by
  obtain ⟨h1, h2⟩ := hok
  cases c <;> simp only [timerOf, setTimer, okR] at hpos h1 h2 ⊢ <;>
    exact ⟨by omega, by omega⟩

theorem roomsOk_moveBody {σ : Type} (E : Engine σ) (s : Nat) (d : MoveData)
    {st : ServerState σ} (h : RoomsOk st.rooms) {r : ServerState σ × List (Emit σ)}
    (hr : V1.moveBody E s d st = .ok r) : RoomsOk r.1.rooms := by
  simp only [V1.moveBody] at hr
  repeat' split at hr
  all_goals try (cases hr)
  all_goals first
    | exact h
    | (refine roomsOk_insertA ?_ h
       have hok : okR _ := okR_of_lookupA h (by assumption)
       exact hok)

theorem roomsOk_onMove {σ : Type} (E : Engine σ) (s : Nat) (d : MoveData)
    {st : ServerState σ} (h : RoomsOk st.rooms) : RoomsOk (V1.onMove E s d st).1.rooms := by
  unfold V1.onMove
  split
  next r hr => exact roomsOk_moveBody E s d h hr
  · exact h

theorem roomsOk_resetgame {σ : Type} (E : Engine σ) (s : Nat) (rid? : Option Nat)
    {st : ServerState σ} (h : RoomsOk st.rooms) :
    RoomsOk (V1.resetgame E s rid? st).1.rooms := by
  simp only [V1.resetgame]
  repeat' split
  all_goals first
    | exact h
    | (refine roomsOk_insertA ?_ h
       constructor <;> norm_num [stopRoomTimer])

theorem roomsOk_disconnect {σ : Type} (s : Nat) {st : ServerState σ}
    (h : RoomsOk st.rooms) : RoomsOk (V1.disconnect s st).1.rooms := by
  simp only [V1.disconnect]
  repeat' split
  all_goals first
    | exact h
    | exact roomsOk_eraseA h
    | (refine roomsOk_insertA ?_ h
       have hok : okR _ := okR_of_lookupA h (by assumption)
       exact hok)

theorem roomsOk_tick {σ : Type} (E : Engine σ) (rid : Nat) {st : ServerState σ}
    (h : RoomsOk st.rooms) : RoomsOk (V1.tick E rid st).1.rooms := by
  simp only [V1.tick]
  split
  · exact h
  next room hl =>
    have hok : okR room := okR_of_lookupA h hl
    repeat' split
    all_goals first
      | exact h
      | exact roomsOk_insertA hok h
      | (refine roomsOk_insertA ?_ h
         have hok2 : okR (setTimer (E.turn room.chess)
             (timerOf (E.turn room.chess) room - 1) room) :=
           okR_setTimer_dec hok (by assumption)
         exact hok2)

theorem roomsOk_connect {σ : Type} (s : Nat) {st : ServerState σ}
    (h : RoomsOk st.rooms) : RoomsOk (V1.connect s st).rooms := h

theorem roomsOk_routeRoom {σ : Type} (E : Engine σ) (rid : Nat) {st : ServerState σ}
    (h : RoomsOk st.rooms) : RoomsOk (V1.routeRoom E rid st).rooms :=
  roomsOk_ensureRoom E rid h

theorem roomsOk_reachable {σ : Type} (E : Engine σ) {st : ServerState σ}
    (h : V1.Reachable E st) : RoomsOk st.rooms := by
  induction h with
  | base => intro p hp; simp [V1.initServer] at hp
  | step _ hstep ih =>
    cases hstep with
    | join s rid => exact roomsOk_joinRoom E s rid ih
    | quick s => exact roomsOk_enterQuickplay E s ih
    | move s d => exact roomsOk_onMove E s d ih
    | reset s rid? => exact roomsOk_resetgame E s rid? ih
    | disc s => exact roomsOk_disconnect s ih
    | tick rid => exact roomsOk_tick E rid ih
    | conn s => exact roomsOk_connect s ih
    | route rid => exact roomsOk_routeRoom E rid ih

/-! Timer component lemmas. -/

theorem timerOf_setTimer {σ : Type} (c : Color) (v : Int) (room : Room σ) :
    timerOf c (setTimer c v room) = v := by
  cases c <;> rfl

/-! Claim theorems. -/

set_option maxRecDepth 100000

/-- C1: for every session and every connection, a `move` event from a
connection that does not occupy the seat whose side it is to move, or
whose move the rules collaborator rejects, changes nothing: the whole
server state (rules state and clock included) is returned unchanged and
no event is emitted (app.js move handler, lines 270-319). -/
theorem c1_turn_enforcement {σ : Type} (E : Engine σ) (s : Nat) (d : MoveData)
    (st : ServerState σ) (rid : Nat) (room : Room σ) (f t : Nat)
    (h1 : V1.resolveRid s d st = Except.ok (some rid))
    (h2 : lookupA rid st.rooms = some room)
    (h3 : dataEffMove d = Except.ok (some f, some t))
    (h4 : ((E.turn room.chess = Color.w ∧ room.white ≠ some s) ∨
           (E.turn room.chess = Color.b ∧ room.black ≠ some s)) ∨
          E.move room.chess f t = none) :
    V1.onMove E s d st = (st, []) := by
  simp only [V1.onMove, V1.moveBody, h1, h2, h3]
  by_cases hc : (E.turn room.chess = Color.w ∧ room.white ≠ some s) ∨
      (E.turn room.chess = Color.b ∧ room.black ≠ some s)
  · rw [if_pos hc]
  · rw [if_neg hc]
    rcases h4 with h4 | h4
    · exact absurd h4 hc
    · rw [h4]

/-- Witness for C1: socket 1 is attached to room 5 but holds neither
seat, so its well-formed move is dropped with no state change. -/
theorem c1_witness : V1.onMove toyEngine 1 mv1011 p4st = (p4st, []) :=
  c1_turn_enforcement toyEngine 1 mv1011 p4st 5 (createRoom toyEngine) 10 11
    rfl (by decide) rfl (Or.inl (Or.inl (by decide)))

/-- C2: the claim asserts seat exclusivity, but evaluating the first
variant's `joinRoom` (app.js lines 146-206) at the failing input — the
same socket 1 sends `joinRoom` twice for room 5 while both seats are
empty — assigns socket 1 *both* the white and the black seat. -/
theorem c2_seat_exclusivity_failing :
    (lookupA 5 (V1.run toyEngine [V1.Act.join 1 5, V1.Act.join 1 5] st0c).rooms).map
      (fun r => (r.white, r.black)) = some (some 1, some 1) := by
  decide

/-- C3 counterexample: in the app.js trace where white's clock runs out
(sockets 1 and 2 seated in room 5, 300 ticks), the timeout tick does
broadcast the `gameover` naming Black — but a move submitted by white
immediately afterwards is still accepted, mutating the rules state,
refuting "no further move submissions are accepted". -/
theorem c3_timeout_ce :
    Emit.toRoom 5 (Ev.gameover (GameResultMsg.winner Color.b true)) ∈ (V1.tick toyEngine 5 c3pre).2
    ∧ (lookupA 5 ((V1.onMove toyEngine 1 mv1011 c3post).1).rooms).map (fun r => r.chess)
      ≠ (lookupA 5 c3post.rooms).map (fun r => r.chess) := by
  decide

/-- C3 (amended): when the running clock of a room ticks with the
side-to-move's counter at 1, the counter reaches zero and the tick
broadcasts the timers update followed by a `gameover` (timeout) naming
the opposite side, and stops the clock (so no further tick of this timer
generation fires); however the move handler never consults the clock, so
move submissions are still accepted afterwards and restart the clock
(as the counterexample shows). -/
theorem c3_timeout_amended {σ : Type} (E : Engine σ) (st : ServerState σ) (rid : Nat)
    (room : Room σ) (hf : lookupA rid st.rooms = some room)
    (hrun : room.isTimerRunning = true)
    (ht : timerOf (E.turn room.chess) room = 1) :
    (V1.tick E rid st).2 =
      [Emit.toRoom rid (Ev.timers (setTimer (E.turn room.chess) 0 room).timersW
        (setTimer (E.turn room.chess) 0 room).timersB),
       Emit.toRoom rid (Ev.gameover (GameResultMsg.winner (E.turn room.chess).flip true))]
    ∧ lookupA rid (V1.tick E rid st).1.rooms
        = some (stopRoomTimer (setTimer (E.turn room.chess) 0 room)) := by
  have h1 : (0 : Int) < timerOf (E.turn room.chess) room := by
    rw [ht]
    norm_num
  have h2 : timerOf (E.turn room.chess) room - 1 = 0 := by
    rw [ht]
    norm_num
  have h3 : timerOf (E.turn room.chess)
      (setTimer (E.turn room.chess) (0 : Int) room) ≤ 0 := by
    rw [timerOf_setTimer]
  simp only [V1.tick, hf, hrun, if_pos h1, h2, if_pos h3]
  refine ⟨rfl, ?_⟩
  exact lookupA_insertA_self _ _ _

/-- Witness for C3 (amended): a concrete room whose white counter is at
1 with the clock running; the tick emits the timeout `gameover` for
Black and stops the clock. -/
theorem c3_witness :
    (V1.tick toyEngine 5 c3wst).2
      = [Emit.toRoom 5 (Ev.timers 0 300),
         Emit.toRoom 5 (Ev.gameover (GameResultMsg.winner Color.b true))]
    ∧ lookupA 5 (V1.tick toyEngine 5 c3wst).1.rooms
      = some { chess := { side := Color.w, moves := 0 }, white := some 1, black := some 2,
               watchers := [], timersW := 0, timersB := 300, isTimerRunning := false } := by
  have h := c3_timeout_amended toyEngine c3wst 5 c3wroom (by decide) (by decide) (by decide)
  exact h

/-- C4 counterexample: sockets 1 and 2 take the seats of room 5 (clock
starts), then socket 1 disconnects; the reached state has an empty white
seat, an occupied black seat, and the clock *still ticking*, refuting
the claimed iff-invariant (app.js disconnect handler, lines 336-370,
stops the clock only when both seats are empty). -/
theorem c4_clock_ce :
    (lookupA 5 (V1.run toyEngine [V1.Act.join 1 5, V1.Act.join 2 5, V1.Act.disc 1] st0c).rooms).map
      (fun r => (r.white, r.black, r.isTimerRunning)) = some (none, some 2, true) := by
  decide

/-- C4 (amended): when a seated player disconnects while the other seat
stays occupied, the room keeps its clock state unchanged — the white
seat is merely vacated and the socket removed from the watchers; in
particular the clock is *not* stopped (the disconnect handler stops the
clock and deletes the room only when both seats become empty). -/
theorem c4_clock_amended {σ : Type} (st : ServerState σ) (s rid b : Nat) (room : Room σ)
    (hc : lookupA s st.currentRoom = some rid)
    (hf : lookupA rid st.rooms = some room)
    (hw : room.white = some s) (hb : room.black = some b) (hne : b ≠ s) :
    lookupA rid (V1.disconnect s st).1.rooms
      = some { room with white := none, watchers := delW s room.watchers } := by
  have hbs : room.black ≠ some s := by
    rw [hb]
    intro hcon
    exact hne (Option.some.injEq _ _ ▸ hcon)
  simp only [V1.disconnect, hc, hf, hw, if_pos rfl, if_neg hbs]
  rw [if_neg]
  · exact lookupA_insertA_self _ _ _
  · intro hcon
    rw [hb] at hcon
    exact Option.noConfusion hcon.2

/-- Witness for C4 (amended): in the concrete two-player room, white's
disconnect leaves black seated and the clock flag untouched (still
running, as the counterexample's trace shows). -/
theorem c4_witness :
    lookupA 5 (V1.disconnect 1 (V1.run toyEngine [V1.Act.join 1 5, V1.Act.join 2 5] st0c)).1.rooms
      = some { chess := { side := Color.w, moves := 0 }, white := none, black := some 2,
               watchers := [], timersW := 300, timersB := 300, isTimerRunning := true } := by
  have h := c4_clock_amended (V1.run toyEngine [V1.Act.join 1 5, V1.Act.join 2 5] st0c)
    1 5 2 { chess := { side := Color.w, moves := 0 }, white := some 1, black := some 2,
            watchers := [], timersW := 300, timersB := 300, isTimerRunning := true }
    (by decide) (by decide) (by decide) (by decide) (by decide)
  exact h

/-- C5 counterexample: in the part_003 variant (whose timer callback
decrements without the positivity guard, lines 37-61), the trace "seat
both players, let white's clock run out, then one accepted move by each
player, then one more tick" drives white's counter to −1, refuting
"no sequence of ticks, moves, resets, or restarts ever drives a counter
below zero". -/
theorem c5_negative_ce :
    (lookupA 5 c5tr.rooms).map (fun r => r.timersW) = some (-1) := by
  decide

/-- C5 (amended): in app.js the tick decrement is guarded (`if
(room.timers[turn] > 0)`), and in every state the first variant's server
can reach from process start — under any sequence of joins, quickplay
requests, moves, resets, disconnects, ticks, connections and
room-creating routes — both counters of every registered room are
non-negative; the part_003/part_004 variants decrement unconditionally
and can reach −1 (see the counterexample). -/
theorem c5_nonneg_amended {σ : Type} (E : Engine σ) (st : ServerState σ)
    (h : V1.Reachable E st) (rid : Nat) (room : Room σ)
    (hf : lookupA rid st.rooms = some room) :
    0 ≤ room.timersW ∧ 0 ≤ room.timersB :=
  okR_of_lookupA (roomsOk_reachable E h) hf

/-- Witness for C5 (amended): the room created by one `/room/:id` route
step from the initial state has counters 300 and 300. -/
theorem c5_witness :
    0 ≤ (createRoom toyEngine).timersW ∧ 0 ≤ (createRoom toyEngine).timersB :=
  c5_nonneg_amended toyEngine (V1.routeRoom toyEngine 7 V1.initServer)
    (V1.Reachable.step V1.Reachable.base (V1.Step.route V1.initServer 7)) 7
    (createRoom toyEngine) (by decide)

/-- C6 counterexample: in the part_003 `joinRoom` (lines 115-148, no
rejoin check), socket 1's second join of room 5 does not re-send its
snapshot and leave occupancy unchanged — it assigns socket 1 the black
seat as well. -/
theorem c6_rejoin_ce :
    (lookupA 5 (P3.run toyEngine [P3.Act.join 1 5, P3.Act.join 1 5] st0c).rooms).map
      (fun r => (r.white, r.black)) = some (some 1, some 1) := by
  decide

/-- C6 (amended): in the defensive app.js `joinRoom` variant (lines
497-597), a join request from a connection that already holds a seat of
the session re-sends exactly the current snapshot (its current role, the
current position and timers) and leaves the rooms map — seats, watchers,
everything — unchanged; in the part_003 variant the same request
reassigns the other seat (see the counterexample). -/
theorem c6_rejoin_amended {σ : Type} (E : Engine σ) (st : ServerState σ) (s rid : Nat)
    (room : Room σ) (hf : lookupA rid st.rooms = some room)
    (hseat : room.white = some s ∨ room.black = some s) :
    (V2.joinRoom E s (JoinPayload.str rid) st).1.rooms = st.rooms
    ∧ (V2.joinRoom E s (JoinPayload.str rid) st).2
        = [Emit.toSock s (Ev.init (if room.white = some s then some Color.w else some Color.b)
            room.chess room.timersW room.timersB)] := by
  have hens : ensureRoom E rid st.rooms = st.rooms := by
    unfold ensureRoom
    rw [hf]
  simp only [V2.joinRoom, V2.joinRoom.joinCore, hens, hf]
  by_cases hw : room.white = some s
  · rw [if_pos hw, if_pos hw]
    exact ⟨rfl, rfl⟩
  · rcases hseat with h | hb
    · exact absurd h hw
    · rw [if_neg hw, if_pos hb, if_neg hw]
      exact ⟨rfl, rfl⟩

/-- Witness for C6 (amended): socket 1, already white in room 9, joins
again; the rooms map is unchanged and it receives its white snapshot. -/
theorem c6_witness :
    (V2.joinRoom toyEngine 1 (JoinPayload.str 9) (V1.run toyEngine [V1.Act.join 1 9] st0c)).1.rooms
      = (V1.run toyEngine [V1.Act.join 1 9] st0c).rooms
    ∧ (V2.joinRoom toyEngine 1 (JoinPayload.str 9) (V1.run toyEngine [V1.Act.join 1 9] st0c)).2
      = [Emit.toSock 1 (Ev.init (some Color.w) { side := Color.w, moves := 0 } 300 300)] := by
  have h := c6_rejoin_amended toyEngine (V1.run toyEngine [V1.Act.join 1 9] st0c) 1 9
    { chess := { side := Color.w, moves := 0 }, white := some 1, black := none,
      watchers := [], timersW := 300, timersB := 300, isTimerRunning := false }
    (by decide) (Or.inl (by decide))
  exact h

/-- Step lemma for C7: a single first-variant `enterQuickplay`, from any
sender, preserves "every registered room has both seats empty" — this
variant deliberately assigns no roles at match time. -/
theorem seatsEmpty_enterQuickplay {σ : Type} (E : Engine σ) (s : Nat) {st : ServerState σ}
    (h : SeatsEmptyAll st.rooms) : SeatsEmptyAll (V1.enterQuickplay E s st).1.rooms := by
  simp only [V1.enterQuickplay]
  repeat' split
  all_goals first
    | exact h
    | (intro p hp
       rcases List.mem_cons.mp hp with h1 | h2
       · rw [h1]
         exact ⟨rfl, rfl⟩
       · exact h p (mem_eraseA h2))

/-- Iterated form of the C7 step lemma. -/
theorem seatsEmpty_runQuick {σ : Type} (E : Engine σ) (senders : List Nat)
    {st : ServerState σ} (h : SeatsEmptyAll st.rooms) :
    SeatsEmptyAll (V1.runQuick E senders st).rooms := by
  induction senders generalizing st with
  | nil => exact h
  | cons a rest ih => exact ih (seatsEmpty_enterQuickplay E a h)

/-- C7: in the app.js matchmaker (lines 210-267) a repeated
enter-matchmaking request from the waiting connection is ignored and —
stronger — `enterQuickplay` never assigns a seat at all, so starting
from any state whose rooms all have empty seats (in particular the
initial state), no sequence of enter-matchmaking requests, from one
connection or many, ever produces a session with both seats held by one
connection: every room still has both seats empty. -/
theorem c7_no_selfmatch_amended {σ : Type} (E : Engine σ) (senders : List Nat)
    (st : ServerState σ) (h : SeatsEmptyAll st.rooms) (rid : Nat) (room : Room σ)
    (hf : lookupA rid (V1.runQuick E senders st).rooms = some room) :
    room.white = none ∧ room.black = none :=
  seatsEmpty_runQuick E senders h (rid, room) (lookupA_mem hf)

/-- Witness for C7: sockets 1 and 2 get matched from the empty state;
the created room 0 exists and has both seats empty. -/
theorem c7_witness :
    (createRoom toyEngine).white = none ∧ (createRoom toyEngine).black = none :=
  c7_no_selfmatch_amended toyEngine [1, 2] st0c
    (fun p hp => absurd hp (List.not_mem_nil p)) 0 (createRoom toyEngine) (by decide)

/-- C7 counterexample: the part_003 matchmaker (lines 92-112) has no
self-check: two `enterQuickplay` requests from the same socket 1 create
a session whose white *and* black seats are both socket 1. -/
theorem c7_selfmatch_ce :
    (lookupA 0 (P3.run toyEngine [P3.Act.quick 1, P3.Act.quick 1] st0c).rooms).map
      (fun r => (r.white, r.black)) = some (some 1, some 1) := by
  decide

/-- C8 counterexample: the part_004 move handler (lines 188-216) has no
try/catch; with room 5 registered and socket 1 attached to it, a `null`
move payload makes the `data.move` read throw out of the handler. -/
theorem c8_throw_ce :
    P4.onMove toyEngine 1 MoveData.null p4st = Except.error () := by
  rfl

/-- C8 (amended): the app.js move handler (lines 270-319) wraps its body
in try/catch and every throw happens before any mutation, so for every
malformed payload — `null`, a non-object, or an object whose move
descriptor lacks `from` or `to` — it returns with the server state
unchanged and nothing emitted; the part_003/part_004 handlers lack the
try/catch and can throw (see the counterexample). -/
theorem c8_malformed_amended {σ : Type} (E : Engine σ) (s : Nat) (d : MoveData)
    (st : ServerState σ) (h : MalformedMove d) :
    V1.onMove E s d st = (st, []) := by
  unfold V1.onMove V1.moveBody V1.resolveRid
  cases d with
  | null =>
    cases hcr : lookupA s st.currentRoom with
    | none => simp [hcr, dataRoomId]
    | some rid =>
      cases hl : lookupA rid st.rooms with
      | none => simp [hcr, hl]
      | some room => simp [hcr, hl, dataEffMove]
  | prim =>
    cases hcr : lookupA s st.currentRoom with
    | none => simp [hcr, dataRoomId]
    | some rid =>
      cases hl : lookupA rid st.rooms with
      | none => simp [hcr, hl]
      | some room => simp [hcr, hl, dataEffMove]
  | obj r mv f t =>
    cases hcr : lookupA s st.currentRoom with
    | none =>
      cases r with
      | none => simp [hcr, dataRoomId]
      | some rid =>
        cases hl : lookupA rid st.rooms with
        | none => simp [hcr, hl, dataRoomId]
        | some room =>
          cases mv with
          | none =>
            rcases h with h | h <;> simp [hcr, hl, dataRoomId, dataEffMove, h]
          | some m =>
            rcases h with h | h <;> simp [hcr, hl, dataRoomId, dataEffMove, h]
    | some rid =>
      cases hl : lookupA rid st.rooms with
      | none => simp [hcr, hl]
      | some room =>
        cases mv with
        | none =>
          rcases h with h | h <;> simp [hcr, hl, dataEffMove, h]
        | some m =>
          rcases h with h | h <;> simp [hcr, hl, dataEffMove, h]

/-- Witness for C8 (amended): a `null` payload from socket 1 in the
initial two-connection state leaves everything unchanged. -/
theorem c8_witness :
    V1.onMove toyEngine 1 MoveData.null st0c = (st0c, []) :=
  c8_malformed_amended toyEngine 1 MoveData.null st0c trivial

/-- C9 counterexample: the part_005 `joinRoom` (line 123,
`if (!rooms[roomId]) return;`) silently ignores a join for an
unregistered id: the state is unchanged, nothing is emitted, and no
session is registered — the join neither creates nor proceeds. -/
theorem c9_ignored_ce :
    P5.joinRoom 1 5 p5st0 = (p5st0, [])
    ∧ lookupA 5 (P5.joinRoom 1 5 p5st0).1.rooms = none :=
  ⟨rfl, rfl⟩

/-- C9 (amended): in the app.js `joinRoom` (lines 146-151), a join for
an id with no registered session constructs a new session with empty
seats, 300 seconds per side, a fresh rules-engine state and the timer
stopped, registers it, and proceeds with seat assignment — the joiner
gets the white seat and receives its `init` snapshot plus the `waiting`
notice; the part_005 variant instead silently ignores unknown ids (see
the counterexample). -/
theorem c9_getorcreate_amended {σ : Type} (E : Engine σ) (s rid : Nat)
    (st : ServerState σ) (hnone : lookupA rid st.rooms = none) :
    lookupA rid (V1.joinRoom E s rid st).1.rooms
      = some { chess := E.init, white := some s, black := none, watchers := [],
               timersW := 300, timersB := 300, isTimerRunning := false }
    ∧ (V1.joinRoom E s rid st).2
      = [Emit.toSock s (Ev.init (some Color.w) E.init 300 300), Emit.toSock s Ev.waiting] := by
  have hens : ensureRoom E rid st.rooms = insertA rid (createRoom E) st.rooms := by
    unfold ensureRoom
    rw [hnone]
  simp only [V1.joinRoom, hens, lookupA_insertA_self, createRoom]
  exact ⟨lookupA_insertA_self _ _ _, rfl⟩

/-- Witness for C9 (amended): socket 1 joins the unknown room 5 from the
initial two-connection state; a default room is registered with socket 1
seated white, and `init` plus `waiting` are sent. -/
theorem c9_witness :
    lookupA 5 (V1.joinRoom toyEngine 1 5 st0c).1.rooms
      = some { chess := { side := Color.w, moves := 0 }, white := some 1, black := none,
               watchers := [], timersW := 300, timersB := 300, isTimerRunning := false }
    ∧ (V1.joinRoom toyEngine 1 5 st0c).2
      = [Emit.toSock 1 (Ev.init (some Color.w) { side := Color.w, moves := 0 } 300 300),
         Emit.toSock 1 Ev.waiting] :=
  c9_getorcreate_amended toyEngine 1 5 st0c rfl

/-- C10: for every registered session and *any* socket — seated,
watching, or never attached — a `resetgame` naming that session replaces
the rules state with a fresh initial position, resets both counters to
300 and stops the clock, while leaving the seats and watchers of that
room, all other rooms, and every socket's current-room association
unchanged, and broadcasts the reset position and timers (app.js lines
322-333; the handler performs no membership check on the sender). -/
theorem c10_reset {σ : Type} (E : Engine σ) (s rid : Nat) (st : ServerState σ)
    (room : Room σ) (hf : lookupA rid st.rooms = some room) :
    lookupA rid (V1.resetgame E s (some rid) st).1.rooms
      = some { room with chess := E.init, timersW := 300, timersB := 300, isTimerRunning := false }
    ∧ (∀ r, r ≠ rid → lookupA r (V1.resetgame E s (some rid) st).1.rooms
        = lookupA r st.rooms)
    ∧ (V1.resetgame E s (some rid) st).1.currentRoom = st.currentRoom
    ∧ (V1.resetgame E s (some rid) st).2
      = [Emit.toRoom rid (Ev.boardupdate E.init), Emit.toRoom rid (Ev.timers 300 300)] := by
  simp only [V1.resetgame, Option.orElse, hf]
  refine ⟨lookupA_insertA_self _ _ _, ?_, by trivial, by trivial⟩
  intro r hr
  exact lookupA_insertA_ne hr _ _

/-- Witness for C10: socket 9, which never joined (and is not even
connected), resets room 5 of the running two-player game; the position
and timers are reset, the clock stops, and the seats stay with sockets
1 and 2. -/
theorem c10_witness :
    lookupA 5 (V1.resetgame toyEngine 9 (some 5)
        (V1.run toyEngine [V1.Act.join 1 5, V1.Act.join 2 5] st0c)).1.rooms
      = some { chess := { side := Color.w, moves := 0 }, white := some 1, black := some 2,
               watchers := [], timersW := 300, timersB := 300, isTimerRunning := false }
    ∧ (V1.resetgame toyEngine 9 (some 5)
        (V1.run toyEngine [V1.Act.join 1 5, V1.Act.join 2 5] st0c)).2
      = [Emit.toRoom 5 (Ev.boardupdate { side := Color.w, moves := 0 }),
         Emit.toRoom 5 (Ev.timers 300 300)] := by
  have h := c10_reset toyEngine 9 5 (V1.run toyEngine [V1.Act.join 1 5, V1.Act.join 2 5] st0c)
    { chess := { side := Color.w, moves := 0 }, white := some 1, black := some 2,
      watchers := [], timersW := 300, timersB := 300, isTimerRunning := true }
    (by decide)
  exact ⟨h.1, h.2.2.2⟩
